import Mathlib

/-!
Shallow embedding of the forecast orchestration and analytics engine of
`src/ai/src/app.py` (a Flask demand-forecasting service), together with
theorems settling the frozen claims about it.

Modelling conventions:
* Machine floats are modelled as exact rationals (`ℚ`).  Python's
  `round(x, 2)` is round-half-to-even at two decimal places, modelled by
  `round2`.
* Calendar dates are modelled as integer day numbers (`ℤ`); adding one day
  is `+ 1`.  `strftime` string formatting is dropped: a point carries its
  day number.
* A raised Python exception (caught at the request boundary and turned into
  an HTTP 500) is modelled as `Option.none`; successful JSON payloads as
  `Option.some`.
* The Prophet regression engine and the Redis cache are external
  collaborators (out of scope per the spec); the engine is a parameter of
  the orchestrator, the cache an explicit association list threaded through.
-/

/-! ## Numeric model: Python `round(x, 2)` over ℚ -/

/-- Round-half-to-even to an integer, as Python's builtin `round` does. -/
def roundHalfEven (q : ℚ) : ℤ :=
  if q - ⌊q⌋ < 1/2 then ⌊q⌋
  else if 1/2 < q - ⌊q⌋ then ⌊q⌋ + 1
  else if 2 ∣ ⌊q⌋ then ⌊q⌋ else ⌊q⌋ + 1

/-- Python's `round(x, 2)`: round-half-to-even at two decimal places. -/
def round2 (q : ℚ) : ℚ := (roundHalfEven (q * 100) : ℚ) / 100

theorem roundHalfEven_le (q : ℚ) : roundHalfEven q ≤ ⌊q⌋ + 1 := by
  unfold roundHalfEven
  split_ifs <;> omega

theorem le_roundHalfEven (q : ℚ) : ⌊q⌋ ≤ roundHalfEven q := by
  unfold roundHalfEven
  split_ifs <;> omega

theorem roundHalfEven_mono {a b : ℚ} (hab : a ≤ b) :
    roundHalfEven a ≤ roundHalfEven b := by
  rcases lt_or_eq_of_le (Int.floor_mono hab) with hlt | heq
  · calc roundHalfEven a ≤ ⌊a⌋ + 1 := roundHalfEven_le a
      _ ≤ ⌊b⌋ := by omega
      _ ≤ roundHalfEven b := le_roundHalfEven b
  · unfold roundHalfEven
    rw [← heq]
    split_ifs <;> first | omega | linarith

theorem roundHalfEven_intCast (k : ℤ) : roundHalfEven (k : ℚ) = k := by
  unfold roundHalfEven
  rw [Int.floor_intCast]
  norm_num

theorem round2_mono {a b : ℚ} (h : a ≤ b) : round2 a ≤ round2 b := by
  unfold round2
  have h1 : roundHalfEven (a * 100) ≤ roundHalfEven (b * 100) :=
    roundHalfEven_mono (by linarith)
  have h2 : ((roundHalfEven (a * 100) : ℤ) : ℚ) ≤ ((roundHalfEven (b * 100) : ℤ) : ℚ) := by
    exact_mod_cast h1
  linarith

theorem round2_zero : round2 0 = 0 := by
  unfold round2
  have h : ((0 : ℚ) * 100) = ((0 : ℤ) : ℚ) := by norm_num
  rw [h, roundHalfEven_intCast]
  norm_num

theorem round2_nonneg {q : ℚ} (h : 0 ≤ q) : 0 ≤ round2 q := by
  calc (0 : ℚ) = round2 0 := round2_zero.symm
    _ ≤ round2 q := round2_mono h

theorem round2_nonpos {q : ℚ} (h : q ≤ 0) : round2 q ≤ 0 := by
  calc round2 q ≤ round2 0 := round2_mono h
    _ = 0 := round2_zero

/-- `round2` is the identity on exact multiples of `1/100`. -/
theorem round2_div100 (k : ℤ) : round2 ((k : ℚ) / 100) = (k : ℚ) / 100 := by
  unfold round2
  rw [div_mul_cancel₀ _ (by norm_num : (100 : ℚ) ≠ 0), roundHalfEven_intCast]

/-! ## Data model -/

/-- The parsed state of a raw record's `ds` field.
`pd.to_datetime` (default `errors='raise'`) turns a valid date into a
timestamp, a null into `NaT`, and raises on a malformed date string. -/
inductive DateField where
  | valid (d : ℤ)
  | nullDate
  | malformed
deriving DecidableEq

/-- The parsed state of a raw record's `y` field.
`pd.to_numeric(errors='coerce')` turns a number into itself and both nulls
and non-numeric strings into `NaN`. -/
inductive ValField where
  | num (v : ℚ)
  | nonNumeric
  | nullVal
deriving DecidableEq

/-- One raw `{ds, y}` record of the `sales_data` request field. -/
structure RawRecord where
  ds : DateField
  y : ValField
deriving DecidableEq

def DateField.isMalformed : DateField → Bool
  | .malformed => true
  | _ => false

/-- A point of the moving-average fallback forecast
(`generate_moving_average_forecast`, lines 209-216). -/
structure FallbackPoint where
  date : ℤ
  predicted_demand : ℚ
  lower_bound : ℚ
  upper_bound : ℚ
deriving DecidableEq

/-- A point of the regression-path forecast
(`generate_enhanced_prophet_forecast`, lines 278-286). -/
structure EnhancedPoint where
  date : ℤ
  predicted_demand : ℚ
  lower_bound : ℚ
  upper_bound : ℚ
  confidence_interval_width : ℚ
deriving DecidableEq

/-! ## Data Normalizer (`generate_forecast`, lines 66-72)

```python
df = pd.DataFrame(sales_data)
df['ds'] = pd.to_datetime(df['ds'])
df['y'] = pd.to_numeric(df['y'], errors='coerce')
df = df.dropna()
```
An empty `sales_data` list gives a column-less DataFrame, so `df['ds']`
raises `KeyError`; a malformed date string makes `pd.to_datetime` raise.
Both surface as HTTP 500, modelled as `none`.  `dropna` removes each row
whose date is `NaT` or whose value is `NaN`, keeping input order; nothing
is sorted or de-duplicated. -/

/-- Row survival under `dropna`: kept iff the date parsed to a timestamp
and the value to a number. -/
def parseRow (r : RawRecord) : Option (ℤ × ℚ) :=
  match r.ds, r.y with
  | .valid d, .num v => some (d, v)
  | _, _ => none

def normalizeSales (sales_data : List RawRecord) : Option (List (ℤ × ℚ)) :=
  if sales_data = [] then none
  else if sales_data.any (fun r => r.ds.isMalformed) then none
  else some (sales_data.filterMap parseRow)

/-! ## Moving-Average Fallback Forecaster
(`generate_moving_average_forecast`, lines 199-218) -/

/-- `df['ds'].max()`: the greatest date of the series (0 on an empty
series, where the real code produces `NaT`; no theorem uses that case). -/
def maxDs (df : List (ℤ × ℚ)) : ℤ :=
  match df with
  | [] => 0
  | p :: rest => rest.foldl (fun m q => max m q.1) p.1

/-- `df.tail(min(7, len(df)))['y'].mean()`: mean of the positionally last
`min 7 (length)` values. -/
def recentAvg (df : List (ℤ × ℚ)) : ℚ :=
  ((df.drop (df.length - min 7 df.length)).map Prod.snd).sum / (min 7 df.length : ℕ)

def generate_moving_average_forecast (df : List (ℤ × ℚ)) (days_ahead : ℕ) :
    List FallbackPoint :=
  (List.range days_ahead).map (fun (i : ℕ) =>
    { date := maxDs df + (i : ℤ) + 1
      predicted_demand := max 0 (round2 (recentAvg df))
      lower_bound := max 0 (round2 (recentAvg df * 0.8))
      upper_bound := max 0 (round2 (recentAvg df * 1.2)) })

/-! ## Regression Forecast Adapter output formatting
(`generate_enhanced_prophet_forecast`, lines 278-286)

The Prophet engine itself is external (spec §6); it is modelled as an
opaque-to-us parameter returning raw `(ds, yhat, yhat_lower, yhat_upper)`
rows.  The adapter filters to dates strictly after the last training date
and formats each row. -/

/-- One `external_factors` entry: name, aligned historical values, aligned
future values, and the engine tuning fields read by `add_regressor`. -/
structure ExternalFactor where
  name : String
  values : List ℚ
  future_values : List ℚ
  prior_scale : ℚ
  standardize : Bool
deriving DecidableEq

/-- One raw engine output row. -/
structure ProphetRow where
  ds : ℤ
  yhat : ℚ
  yhat_lower : ℚ
  yhat_upper : ℚ
deriving DecidableEq

/-- The formatting of one raw engine row (lines 280-285): clamp the three
estimates at 0 after rounding; the interval width is computed from the
raw, unclamped bounds. -/
def formatEnhancedPoint (d : ℤ) (yhat yhat_lower yhat_upper : ℚ) : EnhancedPoint :=
  { date := d
    predicted_demand := max 0 (round2 yhat)
    lower_bound := max 0 (round2 yhat_lower)
    upper_bound := max 0 (round2 yhat_upper)
    confidence_interval_width := round2 (yhat_upper - yhat_lower) }

/-- The external engine: fit on the series with regressors, predict.
Its numeric behaviour is unconstrained here. -/
abbrev Engine := List (ℤ × ℚ) → ℕ → List ExternalFactor → List ProphetRow

def generate_enhanced_prophet_forecast (engine : Engine) (df : List (ℤ × ℚ))
    (days_ahead : ℕ) (external_factors : List ExternalFactor) :
    List EnhancedPoint :=
  ((engine df days_ahead external_factors).filter (fun r => maxDs df < r.ds)).map
    (fun r => formatEnhancedPoint r.ds r.yhat r.yhat_lower r.yhat_upper)

/-- `generate_multi_step_forecast` (lines 290-303): the three fixed
horizons 7, 28 and 84 days. -/
def generate_multi_step_forecast (engine : Engine) (df : List (ℤ × ℚ))
    (external_factors : List ExternalFactor) :
    List EnhancedPoint × List EnhancedPoint × List EnhancedPoint :=
  (generate_enhanced_prophet_forecast engine df 7 external_factors,
   generate_enhanced_prophet_forecast engine df 28 external_factors,
   generate_enhanced_prophet_forecast engine df 84 external_factors)

/-! ## Accuracy Evaluator (`calculate_accuracy_metrics`, lines 305-351) -/

/-- The returned metrics dictionary.  The code also returns
`rmse = float(np.sqrt(mse))`; the square root is not rational, so it is
represented by `rmseOf` below instead of a field. -/
structure AccMetrics where
  mae : ℚ
  mse : ℚ
  mape : ℚ
  mpe : ℚ
  r_squared : ℚ
  accuracy_percentage : ℚ
  sample_size : ℕ
deriving DecidableEq

def meanQ (l : List ℚ) : ℚ := l.sum / l.length

/-- `ss_tot = np.sum((actual - np.mean(actual)) ** 2)` (line 336). -/
def ss_tot_of (actual : List ℚ) : ℚ :=
  (actual.map (fun a => (a - meanQ actual) ^ 2)).sum

/-- `pd.merge(forecast_df, actual_df, on='date', how='inner')` (line 315):
inner join on exact date equality, left order preserved, actuals scanned in
order for each forecast row.  Each joined pair is `(predicted, actual)`. -/
def mergeOn : List (ℤ × ℚ) → List (ℤ × ℚ) → List (ℚ × ℚ)
  | [], _ => []
  | f :: fs, acts =>
      (acts.filter (fun a => a.1 = f.1)).map (fun a => (f.2, a.2)) ++ mergeOn fs acts

/-- Metrics over the non-empty joined pairs (lines 317-351).
`np.where(actual != 0, actual, 1)` is the per-element denominator
`if actual = 0 then 1 else actual`. -/
def accuracy_of_merged (merged : List (ℚ × ℚ)) : Option AccMetrics :=
  if merged = [] then none
  else some
    { mae := meanQ (merged.map (fun p => |p.1 - p.2|))
      mse := meanQ (merged.map (fun p => (p.1 - p.2) ^ 2))
      mape := meanQ (merged.map (fun p => |(p.2 - p.1) / (if p.2 = 0 then 1 else p.2)|)) * 100
      mpe := meanQ (merged.map (fun p => (p.2 - p.1) / (if p.2 = 0 then 1 else p.2))) * 100
      r_squared :=
        if ss_tot_of (merged.map Prod.snd) ≠ 0 then
          1 - (merged.map (fun p => (p.2 - p.1) ^ 2)).sum / ss_tot_of (merged.map Prod.snd)
        else 0
      accuracy_percentage :=
        if meanQ (merged.map (fun p => |(p.2 - p.1) / (if p.2 = 0 then 1 else p.2)|)) * 100 < 100
        then 100 - meanQ (merged.map (fun p => |(p.2 - p.1) / (if p.2 = 0 then 1 else p.2)|)) * 100
        else 0
      sample_size := merged.length }

def calculate_accuracy_metrics (forecasts actual_sales : List (ℤ × ℚ)) :
    Option AccMetrics :=
  if forecasts = [] ∨ actual_sales = [] then none
  else accuracy_of_merged (mergeOn forecasts actual_sales)

/-- `rmse = float(np.sqrt(mse))` (line 326). -/
noncomputable def rmseOf (m : AccMetrics) : ℝ := Real.sqrt (m.mse : ℝ)

/-! ## Data Quality Scorer (`calculate_data_quality_score`, lines 392-425) -/

/-- A DataFrame row as seen by the scorer: a possibly-null date cell and a
possibly-null value cell (the frame has exactly the columns `ds`, `y`). -/
structure Row where
  ds : Option ℤ
  y : Option ℚ
deriving DecidableEq

/-- The normalized (post-`dropna`) series viewed as scorer rows: every
cell is non-null. -/
def toRows (df : List (ℤ × ℚ)) : List Row :=
  df.map (fun p => { ds := some p.1, y := some p.2 })

/-- `df.isnull().sum().sum() / (len(df) * len(df.columns))` (line 400). -/
def missingRatio (df : List Row) : ℚ :=
  ((df.countP (fun r => r.ds.isNone) + df.countP (fun r => r.y.isNone) : ℕ) : ℚ)
    / ((df.length * 2 : ℕ) : ℚ)

/-- Insertion sort, ascending. -/
def insertSorted (x : ℚ) : List ℚ → List ℚ
  | [] => [x]
  | y :: ys => if x ≤ y then x :: y :: ys else y :: insertSorted x ys

def sortAsc (l : List ℚ) : List ℚ := l.foldr insertSorted []

/-- `np.percentile(l, p)` with the default linear interpolation (0 on an
empty list, where numpy raises; the scorer only reaches it with a
non-empty column). -/
def percentileQ (l : List ℚ) (p : ℚ) : ℚ :=
  match sortAsc l with
  | [] => 0
  | s =>
    let h := p / 100 * ((s.length : ℚ) - 1)
    let lo := s.getD ⌊h⌋.toNat 0
    let hi := s.getD (⌊h⌋.toNat + 1) lo
    lo + (h - ⌊h⌋) * (hi - lo)

/-- `df['y'].var() == 0`: pandas sample variance (ddof=1) over non-null
values; with fewer than two values the variance is `NaN`, which compares
unequal to 0. -/
def varIsZero (ys : List ℚ) : Bool :=
  if ys.length ≤ 1 then false
  else decide ((ys.map (fun y => (y - meanQ ys) ^ 2)).sum = 0)

/-- `df['ds'].max()` over the possibly-null date cells (0 if none). -/
def maxDsRows (df : List Row) : ℤ :=
  match df.filterMap Row.ds with
  | [] => 0
  | d :: ds => ds.foldl max d

def calculate_data_quality_score (now : ℤ) (df : List Row) : ℚ :=
  if df.length = 0 then 0
  else
    let ys := df.filterMap Row.y
    let score1 := 100 - missingRatio df * 30
    let score2 := if df.length < 30 then score1 - (30 - (df.length : ℚ)) * 2 else score1
    let score3 := if varIsZero ys then score2 - 40 else score2
    let q75 := percentileQ ys 75
    let q25 := percentileQ ys 25
    let iqr := q75 - q25
    let outlier_ratio :=
      ((ys.countP (fun v =>
          decide (v < q25 - 1.5 * iqr) || decide (q75 + 1.5 * iqr < v)) : ℕ) : ℚ)
        / ((df.length : ℕ) : ℚ)
    let score4 := score3 - outlier_ratio * 20
    let days_since_last := now - maxDsRows df
    let score5 :=
      if days_since_last ≤ 7 then score4 + 5
      else if 30 < days_since_last then score4 - min 10 ((days_since_last : ℚ) / 10)
      else score4
    max 0 (min 100 score5)

/-! ## Model Selection Policy and Forecast Orchestrator
(`generate_forecast`, lines 44-112) -/

def MIN_DATA_POINTS : ℕ := 30

/-- The `model_used` string as a pure function of the normalized series
length (lines 75-89). -/
def modelUsed (n : ℕ) : String :=
  if n < MIN_DATA_POINTS then "moving_average" else "prophet"

/-- The `confidence_level` string as a pure function of the normalized
series length (lines 79 and 88). -/
def confidenceLevel (n : ℕ) : String :=
  if n < MIN_DATA_POINTS then "low"
  else if 90 < n then "high" else "medium"

structure ForecastRequest where
  product_id : String
  sales_data : List RawRecord
  external_factors : List ExternalFactor
  forecast_horizon : ℕ
  multi_step : Bool
deriving DecidableEq

/-- `f"forecast:{product_id}:{forecast_horizon}:{len(external_factors)}"`
(line 60): the key depends only on the product id, the horizon and the
COUNT of external factors. -/
def cacheKey (req : ForecastRequest) : String :=
  "forecast:" ++ req.product_id ++ ":" ++ toString req.forecast_horizon
    ++ ":" ++ toString req.external_factors.length

/-- The `forecasts` field of the response: a flat list for the fallback
and single-horizon regression paths, a `{1_week, 4_week, 12_week}` mapping
for the multi-step path. -/
inductive Forecasts where
  | fallback (points : List FallbackPoint)
  | single (points : List EnhancedPoint)
  | multi (week1 week4 week12 : List EnhancedPoint)
deriving DecidableEq

structure ForecastResponse where
  product_id : String
  forecasts : Forecasts
  confidence_level : String
  model_used : String
  data_quality_score : ℚ
  external_factors_used : ℕ
  generated_at : ℤ
deriving DecidableEq

abbrev Cache := List (String × ForecastResponse)

/-- The request handler (lines 44-112).  `now` stands for the wall clock
(`datetime.now` / `datetime.utcnow`).  Result: the JSON payload (`none`
for HTTP 500), the cache after the request, and whether a forecasting
model (fallback or regression) actually ran.  A cached value is returned
as stored (`json.loads` of `json.dumps` round-trips the payload). -/
def handleForecast (engine : Engine) (now : ℤ) (cache : Cache)
    (req : ForecastRequest) : Option ForecastResponse × Cache × Bool :=
  match List.lookup (cacheKey req) cache with
  | some cached => (some cached, cache, false)
  | none =>
    match normalizeSales req.sales_data with
    | none => (none, cache, false)
    | some df =>
      if df.length < MIN_DATA_POINTS then
        if df.isEmpty then (none, cache, false)
        else
          let resp : ForecastResponse :=
            { product_id := req.product_id
              forecasts := .fallback (generate_moving_average_forecast df req.forecast_horizon)
              confidence_level := "low"
              model_used := "moving_average"
              data_quality_score := calculate_data_quality_score now (toRows df)
              external_factors_used := req.external_factors.length
              generated_at := now }
          (some resp, (cacheKey req, resp) :: cache, true)
      else
        let resp : ForecastResponse :=
          { product_id := req.product_id
            forecasts :=
              if req.multi_step then
                let ms := generate_multi_step_forecast engine df req.external_factors
                .multi ms.1 ms.2.1 ms.2.2
              else
                .single (generate_enhanced_prophet_forecast engine df
                  req.forecast_horizon req.external_factors)
            confidence_level := if 90 < df.length then "high" else "medium"
            model_used := "prophet"
            data_quality_score := calculate_data_quality_score now (toRows df)
            external_factors_used := req.external_factors.length
            generated_at := now }
        (some resp, (cacheKey req, resp) :: cache, true)

/-! ## Concrete example data used by witnesses -/

/-- Ten daily observations of 50 units (spec §8's fallback example). -/
def exSeries10 : List (ℤ × ℚ) :=
  [(1,50),(2,50),(3,50),(4,50),(5,50),(6,50),(7,50),(8,50),(9,50),(10,50)]

/-- An engine that predicts nothing; the fallback-path examples never
reach it. -/
def exEngine : Engine := fun _ _ _ => []

def exFactorA : ExternalFactor :=
  { name := "x", values := [1], future_values := [2], prior_scale := 10, standardize := true }

/-- Same factor count as `exFactorA` but different content. -/
def exFactorB : ExternalFactor :=
  { name := "x", values := [9], future_values := [7], prior_scale := 10, standardize := true }

def exReq1 : ForecastRequest :=
  { product_id := "p", sales_data := [{ ds := .valid 0, y := .num 50 }],
    external_factors := [exFactorA], forecast_horizon := 1, multi_step := false }

/-- Differs from `exReq1` in sales data and factor content, but agrees on
product id, horizon and factor count. -/
def exReq2 : ForecastRequest :=
  { product_id := "p", sales_data := [{ ds := .valid 0, y := .num 99 }],
    external_factors := [exFactorB], forecast_horizon := 1, multi_step := false }

/-- The response computed for `exReq1` at wall-clock 0 on an empty cache. -/
def exResp1 : ForecastResponse :=
  { product_id := "p"
    forecasts := .fallback [{ date := 1, predicted_demand := 50, lower_bound := 40, upper_bound := 60 }]
    confidence_level := "low"
    model_used := "moving_average"
    data_quality_score := 47
    external_factors_used := 1
    generated_at := 0 }

def exCache1 : Cache := [("forecast:p:1:1", exResp1)]

/-! ## Claim theorems -/

/-- C1: model selection is a pure function of the normalized series
length.  Fewer than 30 observations select the moving-average fallback
with confidence `low`; 30 or more select the regression (Prophet) path
with confidence `medium` up to length 90 and `high` above 90.  The second
conjunct ties this to the orchestrator: any successfully computed
(non-cached) response carries exactly these two strings for its series
length, whatever the requested horizon, factors or multi-step flag. -/
theorem c1_model_selection :
    (∀ n : ℕ,
      (n < 30 → modelUsed n = "moving_average" ∧ confidenceLevel n = "low") ∧
      (30 ≤ n → modelUsed n = "prophet" ∧
        (n ≤ 90 → confidenceLevel n = "medium") ∧ (90 < n → confidenceLevel n = "high"))) ∧
    (∀ (engine : Engine) (now : ℤ) (cache : Cache) (req : ForecastRequest)
       (resp : ForecastResponse) (c' : Cache) (ran : Bool) (df : List (ℤ × ℚ)),
      List.lookup (cacheKey req) cache = none →
      normalizeSales req.sales_data = some df →
      handleForecast engine now cache req = (some resp, c', ran) →
      resp.model_used = modelUsed df.length ∧
      resp.confidence_level = confidenceLevel df.length) := by
  constructor
  · intro n
    constructor
    · intro h
      constructor <;> simp [modelUsed, confidenceLevel, MIN_DATA_POINTS, h]
    · intro h
      have h' : ¬ n < MIN_DATA_POINTS := by simp [MIN_DATA_POINTS]; omega
      refine ⟨by simp [modelUsed, h'], ?_, ?_⟩
      · intro h90
        have : ¬ 90 < n := by omega
        simp [confidenceLevel, h', this]
      · intro h90
        simp [confidenceLevel, h', h90]
  · intro engine now cache req resp c' ran df hl hn h
    unfold handleForecast at h
    rw [hl] at h
    simp only [] at h
    rw [hn] at h
    simp only [] at h
    by_cases h30 : df.length < MIN_DATA_POINTS
    · rw [if_pos h30] at h
      by_cases hemp : df.isEmpty
      · rw [if_pos hemp] at h
        simp at h
      · rw [if_neg hemp] at h
        simp only [Prod.mk.injEq, Option.some.injEq] at h
        obtain ⟨h1, -, -⟩ := h
        subst h1
        have h30' : df.length < 30 := by simpa [MIN_DATA_POINTS] using h30
        constructor <;> simp [modelUsed, confidenceLevel, MIN_DATA_POINTS, h30']
    · rw [if_neg h30] at h
      simp only [Prod.mk.injEq, Option.some.injEq] at h
      obtain ⟨h1, -, -⟩ := h
      subst h1
      constructor <;> simp [modelUsed, confidenceLevel, h30]

/-- C1 witness: the pure selection at length 10, and the orchestrator run
on `exReq1` (series length 1, horizon 1), whose response indeed reports
`moving_average` and `low`. -/
theorem c1_model_selection_witness :
    ((10 : ℕ) < 30 ∧ modelUsed 10 = "moving_average" ∧ confidenceLevel 10 = "low") ∧
    (List.lookup (cacheKey exReq1) ([] : Cache) = none ∧
     normalizeSales exReq1.sales_data = some [(0, 50)] ∧
     handleForecast exEngine 0 [] exReq1 = (some exResp1, exCache1, true) ∧
     exResp1.model_used = modelUsed ([((0:ℤ), (50:ℚ))]).length ∧
     exResp1.confidence_level = confidenceLevel ([((0:ℤ), (50:ℚ))]).length) := by
  have hn : normalizeSales exReq1.sales_data = some [(0, 50)] := by
    norm_num [normalizeSales, exReq1, parseRow, List.filterMap, List.any, DateField.isMalformed]
  have hh : handleForecast exEngine 0 [] exReq1 = (some exResp1, exCache1, true) := by
    norm_num [handleForecast, exEngine, exReq1, exResp1, exCache1, exFactorA, cacheKey,
      normalizeSales, parseRow, List.filterMap, List.any, DateField.isMalformed,
      MIN_DATA_POINTS, List.lookup, generate_moving_average_forecast, recentAvg, maxDs,
      round2, roundHalfEven, List.range_succ, List.drop, List.map, List.sum_cons,
      calculate_data_quality_score, toRows, missingRatio, varIsZero, percentileQ,
      sortAsc, insertSorted, maxDsRows, List.foldr, List.getD, List.countP, List.countP.go]
    rfl
  refine ⟨⟨by norm_num, (c1_model_selection.1 10).1 (by norm_num)⟩, rfl, hn, hh, ?_⟩
  exact c1_model_selection.2 exEngine 0 [] exReq1 exResp1 exCache1 true [(0, 50)] rfl hn hh

/-- C9: the cache key depends only on product id, horizon and factor
COUNT.  Two requests agreeing on that triple share the key, and after one
of them has been answered successfully (so its response is cached), the
second — possibly with different sales data, factor values, multi-step
flag, engine behaviour or wall clock — returns the identical cached
response, with the model-ran flag `false` and the cache unchanged. -/
theorem c9_cache_key_roundtrip :
    ∀ (e1 e2 : Engine) (now1 now2 : ℤ) (cache : Cache) (r1 r2 : ForecastRequest),
      r1.product_id = r2.product_id →
      r1.forecast_horizon = r2.forecast_horizon →
      r1.external_factors.length = r2.external_factors.length →
      cacheKey r1 = cacheKey r2 ∧
      ∀ (resp : ForecastResponse) (c1 : Cache) (ran : Bool),
        handleForecast e1 now1 cache r1 = (some resp, c1, ran) →
        handleForecast e2 now2 c1 r2 = (some resp, c1, false) := by
  intro e1 e2 now1 now2 cache r1 r2 hp hh hc
  have hkey : cacheKey r1 = cacheKey r2 := by
    unfold cacheKey
    rw [hp, hh, hc]
  refine ⟨hkey, ?_⟩
  intro resp c1 ran h1
  unfold handleForecast at h1 ⊢
  rw [← hkey]
  cases hl : List.lookup (cacheKey r1) cache with
  | some v =>
    rw [hl] at h1
    simp only [Prod.mk.injEq, Option.some.injEq] at h1
    obtain ⟨hv, hc1, -⟩ := h1
    subst hv
    subst hc1
    rw [hl]
  | none =>
    rw [hl] at h1
    cases hn : normalizeSales r1.sales_data with
    | none =>
      rw [hn] at h1
      simp at h1
    | some df =>
      rw [hn] at h1
      simp only [] at h1
      by_cases h30 : df.length < MIN_DATA_POINTS
      · rw [if_pos h30] at h1
        by_cases hemp : df.isEmpty
        · rw [if_pos hemp] at h1
          simp at h1
        · rw [if_neg hemp] at h1
          simp only [Prod.mk.injEq, Option.some.injEq] at h1
          obtain ⟨hr, hc1, -⟩ := h1
          subst hr
          subst hc1
          simp [List.lookup]
      · rw [if_neg h30] at h1
        simp only [Prod.mk.injEq, Option.some.injEq] at h1
        obtain ⟨hr, hc1, -⟩ := h1
        subst hr
        subst hc1
        simp [List.lookup]

/-- C9 witness: `exReq1` and `exReq2` agree on product id, horizon and
factor count but differ in sales data and factor values; after `exReq1`
is answered and cached, `exReq2` gets the identical cached response
without any model run. -/
theorem c9_cache_key_roundtrip_witness :
    (exReq1.product_id = exReq2.product_id ∧
     exReq1.forecast_horizon = exReq2.forecast_horizon ∧
     exReq1.external_factors.length = exReq2.external_factors.length) ∧
    handleForecast exEngine 0 [] exReq1 = (some exResp1, exCache1, true) ∧
    handleForecast exEngine 7 exCache1 exReq2 = (some exResp1, exCache1, false) := by
  have hh : handleForecast exEngine 0 [] exReq1 = (some exResp1, exCache1, true) := by
    norm_num [handleForecast, exEngine, exReq1, exResp1, exCache1, exFactorA, cacheKey,
      normalizeSales, parseRow, List.filterMap, List.any, DateField.isMalformed,
      MIN_DATA_POINTS, List.lookup, generate_moving_average_forecast, recentAvg, maxDs,
      round2, roundHalfEven, List.range_succ, List.drop, List.map, List.sum_cons,
      calculate_data_quality_score, toRows, missingRatio, varIsZero, percentileQ,
      sortAsc, insertSorted, maxDsRows, List.foldr, List.getD, List.countP, List.countP.go]
    rfl
  refine ⟨⟨rfl, rfl, rfl⟩, hh, ?_⟩
  exact (c9_cache_key_roundtrip exEngine exEngine 0 7 [] exReq1 exReq2 rfl rfl rfl).2
    exResp1 exCache1 true hh

/-- C2 counterexample: the regression-path output formatting (lines
278-286) does not itself enforce the interval ordering.  On the raw engine
row `(yhat, yhat_lower, yhat_upper) = (5, 10, 3)` — which the external
engine's contract (spec §6) does not rule out — the formatted point has
`lower_bound = 10 > 5 = predicted_demand`, violating the claimed
invariant. -/
theorem c2_point_invariant_cex :
    (formatEnhancedPoint 0 5 10 3).lower_bound = 10 ∧
    (formatEnhancedPoint 0 5 10 3).predicted_demand = 5 ∧
    ¬ (formatEnhancedPoint 0 5 10 3).lower_bound ≤
        (formatEnhancedPoint 0 5 10 3).predicted_demand := by
  norm_num [formatEnhancedPoint, round2, roundHalfEven]

/-- C2 as amended: every fallback-path point satisfies
`0 ≤ lower_bound ≤ predicted_demand ≤ upper_bound` unconditionally, and a
regression-path formatted point satisfies it whenever the raw engine row
is itself ordered (`yhat_lower ≤ yhat ≤ yhat_upper`). -/
theorem c2_point_invariant_amended :
    (∀ (df : List (ℤ × ℚ)) (h : ℕ), df ≠ [] →
      ∀ pt ∈ generate_moving_average_forecast df h,
        0 ≤ pt.lower_bound ∧ pt.lower_bound ≤ pt.predicted_demand ∧
        pt.predicted_demand ≤ pt.upper_bound) ∧
    (∀ (d : ℤ) (yhat yl yu : ℚ), yl ≤ yhat → yhat ≤ yu →
      0 ≤ (formatEnhancedPoint d yhat yl yu).lower_bound ∧
      (formatEnhancedPoint d yhat yl yu).lower_bound ≤
        (formatEnhancedPoint d yhat yl yu).predicted_demand ∧
      (formatEnhancedPoint d yhat yl yu).predicted_demand ≤
        (formatEnhancedPoint d yhat yl yu).upper_bound) := by
  constructor
  · intro df h hdf pt hpt
    simp only [generate_moving_average_forecast, List.mem_map, List.mem_range] at hpt
    obtain ⟨i, -, rfl⟩ := hpt
    refine ⟨le_max_left 0 _, ?_, ?_⟩
    · rcases le_or_lt 0 (recentAvg df) with hx | hx
      · exact max_le_max le_rfl (round2_mono (by linarith))
      · have h1 : round2 (recentAvg df * 0.8) ≤ 0 := round2_nonpos (by linarith)
        have h2 : round2 (recentAvg df) ≤ 0 := round2_nonpos hx.le
        simp [max_eq_left h1, max_eq_left h2]
    · rcases le_or_lt 0 (recentAvg df) with hx | hx
      · exact max_le_max le_rfl (round2_mono (by linarith))
      · have h1 : round2 (recentAvg df * 1.2) ≤ 0 := round2_nonpos (by linarith)
        have h2 : round2 (recentAvg df) ≤ 0 := round2_nonpos hx.le
        simp [max_eq_left h1, max_eq_left h2]
  · intro d yhat yl yu h1 h2
    exact ⟨le_max_left 0 _, max_le_max le_rfl (round2_mono h1),
      max_le_max le_rfl (round2_mono h2)⟩

/-- C2 amended witness: the fallback part at `exSeries10`, horizon 5, on
its first point, and the regression part at the ordered raw row
`(5, 3, 10)`. -/
theorem c2_point_invariant_amended_witness :
    (exSeries10 ≠ [] ∧
      ({ date := 11, predicted_demand := 50, lower_bound := 40, upper_bound := 60 } : FallbackPoint)
        ∈ generate_moving_average_forecast exSeries10 5 ∧
      (0 : ℚ) ≤ 40 ∧ (40 : ℚ) ≤ 50 ∧ (50 : ℚ) ≤ 60) ∧
    ((3 : ℚ) ≤ 5 ∧ (5 : ℚ) ≤ 10 ∧
      0 ≤ (formatEnhancedPoint 0 5 3 10).lower_bound ∧
      (formatEnhancedPoint 0 5 3 10).lower_bound ≤
        (formatEnhancedPoint 0 5 3 10).predicted_demand ∧
      (formatEnhancedPoint 0 5 3 10).predicted_demand ≤
        (formatEnhancedPoint 0 5 3 10).upper_bound) := by
  have hmem : ({ date := 11, predicted_demand := 50, lower_bound := 40, upper_bound := 60 } : FallbackPoint)
      ∈ generate_moving_average_forecast exSeries10 5 := by
    norm_num [generate_moving_average_forecast, recentAvg, maxDs, exSeries10, round2,
      roundHalfEven, List.range_succ, List.drop, List.map, List.sum_cons]
  have hfb := (c2_point_invariant_amended.1 exSeries10 5 (by simp [exSeries10]) _ hmem)
  have hpr := c2_point_invariant_amended.2 0 5 3 10 (by norm_num) (by norm_num)
  exact ⟨⟨by simp [exSeries10], hmem, by norm_num, hfb.2.1, hfb.2.2⟩,
    ⟨by norm_num, by norm_num, hpr.1, hpr.2.1, hpr.2.2⟩⟩

/-- C3: the moving-average fallback returns exactly `h` points, one per
consecutive day starting the day after the series' greatest date, each
with `predicted = max(0, round(recent_avg, 2))`,
`lower = max(0, round(recent_avg*0.8, 2))`,
`upper = max(0, round(recent_avg*1.2, 2))`, where `recent_avg` is the mean
of the (positionally) last `min 7 (length)` values; in particular, ten
daily observations of 50 with horizon 5 give five points of 50/40/60 on
days 11-15. -/
theorem c3_fallback_forecast :
    (∀ (df : List (ℤ × ℚ)) (h : ℕ), df ≠ [] → 1 ≤ h →
      (generate_moving_average_forecast df h).length = h ∧
      generate_moving_average_forecast df h =
        (List.range h).map (fun (i : ℕ) =>
          { date := maxDs df + (i : ℤ) + 1
            predicted_demand := max 0 (round2
              (((df.drop (df.length - min 7 df.length)).map Prod.snd).sum / (min 7 df.length : ℕ)))
            lower_bound := max 0 (round2
              ((((df.drop (df.length - min 7 df.length)).map Prod.snd).sum / (min 7 df.length : ℕ)) * 0.8))
            upper_bound := max 0 (round2
              ((((df.drop (df.length - min 7 df.length)).map Prod.snd).sum / (min 7 df.length : ℕ)) * 1.2)) })) ∧
    generate_moving_average_forecast exSeries10 5 =
      [{ date := 11, predicted_demand := 50, lower_bound := 40, upper_bound := 60 },
       { date := 12, predicted_demand := 50, lower_bound := 40, upper_bound := 60 },
       { date := 13, predicted_demand := 50, lower_bound := 40, upper_bound := 60 },
       { date := 14, predicted_demand := 50, lower_bound := 40, upper_bound := 60 },
       { date := 15, predicted_demand := 50, lower_bound := 40, upper_bound := 60 }] := by
  constructor
  · intro df h _ _
    constructor
    · simp only [generate_moving_average_forecast, List.length_map, List.length_range]
    · unfold generate_moving_average_forecast recentAvg
      rfl
  · norm_num [generate_moving_average_forecast, recentAvg, maxDs, exSeries10, round2,
      roundHalfEven, List.range_succ, List.drop, List.map, List.sum_cons]

/-- C3 witness: the general statement instantiated at `exSeries10` with
horizon 5. -/
theorem c3_fallback_forecast_witness :
    exSeries10 ≠ [] ∧ (1 : ℕ) ≤ 5 ∧
    (generate_moving_average_forecast exSeries10 5).length = 5 := by
  refine ⟨by simp [exSeries10], by norm_num, ?_⟩
  exact (c3_fallback_forecast.1 exSeries10 5 (by simp [exSeries10]) (by norm_num)).1

/-- Raw input with out-of-order and duplicate dates; all records survive
normalization. -/
def badRaw : List RawRecord :=
  [{ ds := .valid 5, y := .num 3 }, { ds := .valid 2, y := .num 4 },
   { ds := .valid 2, y := .num 7 }]

/-- Raw input whose first record has an unparseable date string. -/
def badRaw2 : List RawRecord :=
  [{ ds := .malformed, y := .num 1 }, { ds := .valid 0, y := .num 2 }]

/-- C4 counterexample: normalization (lines 66-72) neither sorts nor
de-duplicates — on `badRaw` it returns the records in input order with a
duplicated date — and a record with an unparseable date is not dropped:
it makes `pd.to_datetime` raise, failing the whole request (`badRaw2`). -/
theorem c4_normalize_cex :
    normalizeSales badRaw = some [(5, 3), (2, 4), (2, 7)] ∧
    ¬ (([((5:ℤ), (3:ℚ)), (2, 4), (2, 7)].map Prod.fst).Nodup) ∧
    ¬ List.Chain' (· ≤ ·) ([((5:ℤ), (3:ℚ)), (2, 4), (2, 7)].map Prod.fst) ∧
    normalizeSales badRaw2 = none := by
  refine ⟨?_, by norm_num, by norm_num, ?_⟩
  · simp [normalizeSales, badRaw, parseRow, List.filterMap, List.any, DateField.isMalformed]
  · simp [normalizeSales, badRaw2, List.any, DateField.isMalformed]

/-- C4 as amended: a record whose value is non-numeric or null, or whose
date is null, is removed; the surviving records keep their input order
(no sorting, no de-duplication), each surviving pair coming from an input
record; and an unparseable date string aborts normalization with an error
instead of being dropped. -/
theorem c4_normalize_amended :
    ∀ raw : List RawRecord, raw ≠ [] →
      ((∃ r ∈ raw, r.ds.isMalformed = true) → normalizeSales raw = none) ∧
      ((∀ r ∈ raw, r.ds.isMalformed = false) →
        normalizeSales raw = some (raw.filterMap parseRow) ∧
        ∀ p ∈ raw.filterMap parseRow,
          ({ ds := .valid p.1, y := .num p.2 } : RawRecord) ∈ raw) := by
  intro raw hne
  constructor
  · rintro ⟨r, hr, hm⟩
    unfold normalizeSales
    rw [if_neg hne, if_pos]
    exact List.any_eq_true.mpr ⟨r, hr, hm⟩
  · intro hall
    have hany : ¬ raw.any (fun r => r.ds.isMalformed) = true := by
      rw [List.any_eq_true]
      rintro ⟨r, hr, hm⟩
      rw [hall r hr] at hm
      exact Bool.false_ne_true hm
    refine ⟨?_, ?_⟩
    · unfold normalizeSales
      rw [if_neg hne, if_neg hany]
    · intro p hp
      obtain ⟨r, hr, hpr⟩ := List.mem_filterMap.mp hp
      obtain ⟨pd, pv⟩ := p
      obtain ⟨ds, y⟩ := r
      cases ds <;> cases y <;> simp [parseRow] at hpr
      obtain ⟨rfl, rfl⟩ := hpr
      exact hr

/-- C4 amended witness: the malformed-free input `badRaw` normalizes to
its surviving records in input order, and `badRaw2` (one malformed date)
is rejected wholesale. -/
theorem c4_normalize_amended_witness :
    (badRaw ≠ [] ∧ (∀ r ∈ badRaw, r.ds.isMalformed = false) ∧
      normalizeSales badRaw = some (badRaw.filterMap parseRow)) ∧
    (badRaw2 ≠ [] ∧ (∃ r ∈ badRaw2, r.ds.isMalformed = true) ∧
      normalizeSales badRaw2 = none) := by
  have h1 : ∀ r ∈ badRaw, r.ds.isMalformed = false := by
    intro r hr
    simp [badRaw] at hr
    rcases hr with rfl | rfl | rfl <;> rfl
  have h2 : ∃ r ∈ badRaw2, r.ds.isMalformed = true :=
    ⟨{ ds := .malformed, y := .num 1 }, by simp [badRaw2], rfl⟩
  exact ⟨⟨by simp [badRaw], h1, ((c4_normalize_amended badRaw (by simp [badRaw])).2 h1).1⟩,
    ⟨by simp [badRaw2], h2, (c4_normalize_amended badRaw2 (by simp [badRaw2])).1 h2⟩⟩

/-- Pre-drop nullness of a date cell: `pd.to_datetime` yields `NaT`
exactly for nulls (malformed dates raise instead). -/
def DateField.isNullCell : DateField → Bool
  | .nullDate => true
  | _ => false

/-- Pre-drop nullness of a value cell after `to_numeric(errors='coerce')`. -/
def ValField.isNullCell : ValField → Bool
  | .num _ => false
  | _ => true

/-- Modelled from the spec's words for comparison: the fraction of null
cells (values and dates) across the ORIGINAL pre-drop record set relative
to total cells. -/
def specPreDropMissingRatio (raw : List RawRecord) : ℚ :=
  ((raw.countP (fun r => r.ds.isNullCell) + raw.countP (fun r => r.y.isNullCell) : ℕ) : ℚ)
    / ((raw.length * 2 : ℕ) : ℚ)

/-- Two records, one with a non-numeric value. -/
def rawWithNull : List RawRecord :=
  [{ ds := .valid 0, y := .num 5 }, { ds := .valid 1, y := .nonNumeric }]

/-- C5 counterexample: the orchestrator drops null rows (line 72) BEFORE
scoring (line 92), so the scorer's `missing_ratio` (line 400) sees a
null-free frame and the penalty is 0 — not the pre-drop fraction the
claim describes (`1/4 * 30 = 15/2` on `rawWithNull`). -/
theorem c5_missing_penalty_cex :
    normalizeSales rawWithNull = some [(0, 5)] ∧
    missingRatio (toRows [((0:ℤ), (5:ℚ))]) * 30 = 0 ∧
    specPreDropMissingRatio rawWithNull * 30 = 15 / 2 ∧
    (0 : ℚ) ≠ 15 / 2 := by
  refine ⟨?_, ?_, ?_, by norm_num⟩
  · simp [normalizeSales, rawWithNull, parseRow, List.filterMap, List.any,
      DateField.isMalformed]
  · norm_num [missingRatio, toRows, List.countP, List.countP.go]
  · norm_num [specPreDropMissingRatio, rawWithNull, List.countP, List.countP.go,
      DateField.isNullCell, ValField.isNullCell]

/-- C5 as amended: `missing_ratio` is computed on the post-drop dataframe
the orchestrator passes to the scorer, which contains no null cells, so
the missing-data penalty `missing_ratio * 30` is 0 on every series reaching
the scorer through the forecast path. -/
theorem c5_missing_penalty_amended :
    ∀ (raw : List RawRecord) (df : List (ℤ × ℚ)),
      normalizeSales raw = some df → missingRatio (toRows df) * 30 = 0 := by
  intro raw df _
  have h1 : (toRows df).countP (fun r => r.ds.isNone) = 0 := by
    rw [List.countP_eq_zero]
    intro r hr
    obtain ⟨p, -, rfl⟩ := List.mem_map.mp hr
    simp
  have h2 : (toRows df).countP (fun r => r.y.isNone) = 0 := by
    rw [List.countP_eq_zero]
    intro r hr
    obtain ⟨p, -, rfl⟩ := List.mem_map.mp hr
    simp
  simp [missingRatio, h1, h2]

/-- C5 amended witness: the pipeline on `rawWithNull` drops the null row
and the penalty actually applied is 0. -/
theorem c5_missing_penalty_amended_witness :
    normalizeSales rawWithNull = some [(0, 5)] ∧
    missingRatio (toRows [((0:ℤ), (5:ℚ))]) * 30 = 0 := by
  have hn : normalizeSales rawWithNull = some [(0, 5)] := by
    simp [normalizeSales, rawWithNull, parseRow, List.filterMap, List.any,
      DateField.isMalformed]
  exact ⟨hn, c5_missing_penalty_amended rawWithNull [(0, 5)] hn⟩

theorem mergeOn_nil_right : ∀ f : List (ℤ × ℚ), mergeOn f [] = [] := by
  intro f
  induction f with
  | nil => rfl
  | cons a t ih => simp [mergeOn, ih]

theorem list_sum_zero_of {α : Type} (l : List α) (f : α → ℚ)
    (h : ∀ x ∈ l, f x = 0) : (l.map f).sum = 0 := by
  induction l with
  | nil => simp
  | cons a t ih =>
    simp only [List.map_cons, List.sum_cons]
    rw [h a (by simp), ih (fun x hx => h x (by simp [hx]))]
    norm_num

/-- C6 counterexample: on the perfectly matching single-pair join
`[(day 0, 5)]` vs `[(day 0, 5)]` the evaluator returns `r_squared = 0`,
not 1, because `ss_tot = 0` there (line 337's guard). -/
theorem c6_perfect_accuracy_cex :
    calculate_accuracy_metrics [((0:ℤ), (5:ℚ))] [((0:ℤ), (5:ℚ))] =
      some { mae := 0, mse := 0, mape := 0, mpe := 0, r_squared := 0,
             accuracy_percentage := 100, sample_size := 1 } ∧
    (0 : ℚ) ≠ 1 := by
  refine ⟨?_, by norm_num⟩
  norm_num [calculate_accuracy_metrics, accuracy_of_merged, mergeOn, meanQ, ss_tot_of,
    List.filter, List.map, List.sum_cons]

/-- C6 as amended: on every non-empty perfectly matching join the
evaluator returns `mae = mse = rmse = mape = mpe = 0` and
`accuracy_percentage = 100`, with `r_squared = 1` when the joined actuals
are not all equal (`ss_tot ≠ 0`) but `r_squared = 0` when they are
(`ss_tot = 0`). -/
theorem c6_perfect_accuracy_amended :
    ∀ forecasts actual_sales : List (ℤ × ℚ),
      mergeOn forecasts actual_sales ≠ [] →
      (∀ p ∈ mergeOn forecasts actual_sales, p.1 = p.2) →
      ∃ m : AccMetrics,
        calculate_accuracy_metrics forecasts actual_sales = some m ∧
        m.mae = 0 ∧ m.mse = 0 ∧ rmseOf m = 0 ∧ m.mape = 0 ∧ m.mpe = 0 ∧
        m.accuracy_percentage = 100 ∧
        m.sample_size = (mergeOn forecasts actual_sales).length ∧
        (ss_tot_of ((mergeOn forecasts actual_sales).map Prod.snd) ≠ 0 → m.r_squared = 1) ∧
        (ss_tot_of ((mergeOn forecasts actual_sales).map Prod.snd) = 0 → m.r_squared = 0) := by
  intro f a hne hperf
  have hf : f ≠ [] := by
    rintro rfl
    exact hne rfl
  have ha : a ≠ [] := by
    rintro rfl
    rw [mergeOn_nil_right] at hne
    exact hne rfl
  have hmae : ((mergeOn f a).map (fun p => |p.1 - p.2|)).sum = 0 :=
    list_sum_zero_of _ _ (fun p hp => by rw [hperf p hp]; simp)
  have hmse : ((mergeOn f a).map (fun p => (p.1 - p.2) ^ 2)).sum = 0 :=
    list_sum_zero_of _ _ (fun p hp => by rw [hperf p hp]; ring)
  have hssres : ((mergeOn f a).map (fun p => (p.2 - p.1) ^ 2)).sum = 0 :=
    list_sum_zero_of _ _ (fun p hp => by rw [hperf p hp]; ring)
  have hmape : ((mergeOn f a).map
      (fun p => |(p.2 - p.1) / (if p.2 = 0 then 1 else p.2)|)).sum = 0 :=
    list_sum_zero_of _ _ (fun p hp => by rw [hperf p hp]; simp)
  have hmpe : ((mergeOn f a).map
      (fun p => (p.2 - p.1) / (if p.2 = 0 then 1 else p.2))).sum = 0 :=
    list_sum_zero_of _ _ (fun p hp => by rw [hperf p hp]; simp)
  unfold calculate_accuracy_metrics accuracy_of_merged
  rw [if_neg (by push_neg; exact ⟨hf, ha⟩), if_neg hne]
  refine ⟨_, rfl, ?_, ?_, ?_, ?_, ?_, ?_, rfl, ?_, ?_⟩
  · show meanQ ((mergeOn f a).map (fun p => |p.1 - p.2|)) = 0
    rw [meanQ, hmae, zero_div]
  · show meanQ ((mergeOn f a).map (fun p => (p.1 - p.2) ^ 2)) = 0
    rw [meanQ, hmse, zero_div]
  · show Real.sqrt ((meanQ ((mergeOn f a).map (fun p => (p.1 - p.2) ^ 2)) : ℚ) : ℝ) = 0
    rw [meanQ, hmse, zero_div]
    simp
  · show meanQ ((mergeOn f a).map
        (fun p => |(p.2 - p.1) / (if p.2 = 0 then 1 else p.2)|)) * 100 = 0
    rw [meanQ, hmape, zero_div, zero_mul]
  · show meanQ ((mergeOn f a).map
        (fun p => (p.2 - p.1) / (if p.2 = 0 then 1 else p.2))) * 100 = 0
    rw [meanQ, hmpe, zero_div, zero_mul]
  · show (if meanQ ((mergeOn f a).map
        (fun p => |(p.2 - p.1) / (if p.2 = 0 then 1 else p.2)|)) * 100 < 100
      then 100 - meanQ ((mergeOn f a).map
        (fun p => |(p.2 - p.1) / (if p.2 = 0 then 1 else p.2)|)) * 100
      else 0) = 100
    rw [meanQ, hmape, zero_div]
    norm_num
  · intro h
    show (if ss_tot_of ((mergeOn f a).map Prod.snd) ≠ 0 then
        1 - ((mergeOn f a).map (fun p => (p.2 - p.1) ^ 2)).sum /
          ss_tot_of ((mergeOn f a).map Prod.snd)
      else 0) = 1
    rw [if_pos h, hssres, zero_div, sub_zero]
  · intro h
    show (if ss_tot_of ((mergeOn f a).map Prod.snd) ≠ 0 then
        1 - ((mergeOn f a).map (fun p => (p.2 - p.1) ^ 2)).sum /
          ss_tot_of ((mergeOn f a).map Prod.snd)
      else 0) = 0
    rw [if_neg (by simpa using h)]

/-- C6 amended witness: the perfectly matching two-day join `(5, 7)`,
whose actuals are not all equal, yields zero errors, accuracy 100 and
`r_squared = 1`. -/
theorem c6_perfect_accuracy_amended_witness :
    (mergeOn [((0:ℤ), (5:ℚ)), (1, 7)] [((0:ℤ), (5:ℚ)), (1, 7)] ≠ [] ∧
     (∀ p ∈ mergeOn [((0:ℤ), (5:ℚ)), (1, 7)] [((0:ℤ), (5:ℚ)), (1, 7)], p.1 = p.2)) ∧
    (∃ m : AccMetrics,
      calculate_accuracy_metrics [((0:ℤ), (5:ℚ)), (1, 7)] [((0:ℤ), (5:ℚ)), (1, 7)] = some m ∧
      m.mae = 0 ∧ m.mse = 0 ∧ rmseOf m = 0 ∧ m.mape = 0 ∧ m.mpe = 0 ∧
      m.accuracy_percentage = 100 ∧
      m.sample_size = (mergeOn [((0:ℤ), (5:ℚ)), (1, 7)] [((0:ℤ), (5:ℚ)), (1, 7)]).length ∧
      (ss_tot_of ((mergeOn [((0:ℤ), (5:ℚ)), (1, 7)] [((0:ℤ), (5:ℚ)), (1, 7)]).map Prod.snd) ≠ 0 →
        m.r_squared = 1) ∧
      (ss_tot_of ((mergeOn [((0:ℤ), (5:ℚ)), (1, 7)] [((0:ℤ), (5:ℚ)), (1, 7)]).map Prod.snd) = 0 →
        m.r_squared = 0)) ∧
    calculate_accuracy_metrics [((0:ℤ), (5:ℚ)), (1, 7)] [((0:ℤ), (5:ℚ)), (1, 7)] =
      some { mae := 0, mse := 0, mape := 0, mpe := 0, r_squared := 1,
             accuracy_percentage := 100, sample_size := 2 } := by
  have h1 : mergeOn [((0:ℤ), (5:ℚ)), (1, 7)] [((0:ℤ), (5:ℚ)), (1, 7)] ≠ [] := by
    simp [mergeOn, List.filter]
  have h2 : ∀ p ∈ mergeOn [((0:ℤ), (5:ℚ)), (1, 7)] [((0:ℤ), (5:ℚ)), (1, 7)], p.1 = p.2 := by
    intro p hp
    simp [mergeOn, List.filter] at hp
    rcases hp with rfl | rfl <;> rfl
  refine ⟨⟨h1, h2⟩, c6_perfect_accuracy_amended _ _ h1 h2, ?_⟩
  simp [calculate_accuracy_metrics, accuracy_of_merged, mergeOn, meanQ, ss_tot_of,
    List.filter]
  norm_num

/-- C10: the accuracy evaluator returns the empty metrics object
(modelled as `none`, i.e. `{}` with no keys and no exception) whenever
either input list is empty — the guard on line 307 fires before any
DataFrame is built — as well as when the date join is empty. -/
theorem c10_empty_inputs :
    ∀ forecasts actual_sales : List (ℤ × ℚ),
      (forecasts = [] ∨ actual_sales = [] ∨ mergeOn forecasts actual_sales = []) →
      calculate_accuracy_metrics forecasts actual_sales = none := by
  intro f a h
  unfold calculate_accuracy_metrics
  rcases h with h | h | h
  · rw [if_pos (Or.inl h)]
  · rw [if_pos (Or.inr h)]
  · by_cases he : f = [] ∨ a = []
    · rw [if_pos he]
    · rw [if_neg he]
      unfold accuracy_of_merged
      rw [if_pos h]

/-- C10 witness: an empty forecast list against a non-empty actuals list
yields the empty metrics object. -/
theorem c10_empty_inputs_witness :
    (([] : List (ℤ × ℚ)) = [] ∨ ([((0:ℤ), (1:ℚ))] : List (ℤ × ℚ)) = [] ∨
      mergeOn [] [((0:ℤ), (1:ℚ))] = []) ∧
    calculate_accuracy_metrics [] [((0:ℤ), (1:ℚ))] = none :=
  ⟨Or.inl rfl, c10_empty_inputs [] [((0:ℤ), (1:ℚ))] (Or.inl rfl)⟩

/-- C7 counterexample: `confidence_interval_width` (line 285) is computed
from the RAW engine bounds, not the clamped, rounded reported ones.  On
the raw row `(yhat, yhat_lower, yhat_upper) = (5, -10, 20)` the reported
bounds are `0` and `20` (difference 20) but the width is
`round(20 - (-10), 2) = 30`. -/
theorem c7_interval_width_cex :
    (formatEnhancedPoint 0 5 (-10) 20).confidence_interval_width = 30 ∧
    (formatEnhancedPoint 0 5 (-10) 20).upper_bound -
      (formatEnhancedPoint 0 5 (-10) 20).lower_bound = 20 ∧
    (30 : ℚ) ≠ 20 := by
  norm_num [formatEnhancedPoint, round2, roundHalfEven]

/-- C7 as amended: on the single-horizon regression path every point's
`confidence_interval_width` equals `round(yhat_upper - yhat_lower, 2)`
computed from the raw engine bounds; it coincides with
`upper_bound - lower_bound` of the reported (clamped, rounded) values
when both raw bounds are non-negative exact multiples of `1/100` (so that
clamping and rounding are the identity). -/
theorem c7_interval_width_amended :
    (∀ (d : ℤ) (yhat yhat_lower yhat_upper : ℚ),
      (formatEnhancedPoint d yhat yhat_lower yhat_upper).confidence_interval_width =
        round2 (yhat_upper - yhat_lower)) ∧
    (∀ (d : ℤ) (yhat : ℚ) (l k : ℤ), 0 ≤ l → 0 ≤ k →
      (formatEnhancedPoint d yhat ((l : ℚ) / 100) ((k : ℚ) / 100)).confidence_interval_width =
        (formatEnhancedPoint d yhat ((l : ℚ) / 100) ((k : ℚ) / 100)).upper_bound -
          (formatEnhancedPoint d yhat ((l : ℚ) / 100) ((k : ℚ) / 100)).lower_bound) := by
  constructor
  · intro d yhat yl yu
    rfl
  · intro d yhat l k hl hk
    have hl' : (0 : ℚ) ≤ (l : ℚ) / 100 := by positivity
    have hk' : (0 : ℚ) ≤ (k : ℚ) / 100 := by positivity
    show round2 ((k : ℚ) / 100 - (l : ℚ) / 100) =
      max 0 (round2 ((k : ℚ) / 100)) - max 0 (round2 ((l : ℚ) / 100))
    rw [round2_div100, round2_div100, max_eq_right hk', max_eq_right hl']
    have hdiff : (k : ℚ) / 100 - (l : ℚ) / 100 = ((k - l : ℤ) : ℚ) / 100 := by
      push_cast
      ring
    rw [hdiff, round2_div100]

/-- C7 amended witness: the raw row `(5, 1/2, 2)` (bounds `50/100` and
`200/100`) has width `3/2`, equal to the reported difference `2 - 1/2`. -/
theorem c7_interval_width_amended_witness :
    ((formatEnhancedPoint 0 5 (1/2) 2).confidence_interval_width = round2 (2 - 1/2)) ∧
    ((0:ℤ) ≤ 50 ∧ (0:ℤ) ≤ 200 ∧
      (formatEnhancedPoint 0 5 ((50 : ℤ) / 100 : ℚ) ((200 : ℤ) / 100 : ℚ)).confidence_interval_width =
        (formatEnhancedPoint 0 5 ((50 : ℤ) / 100 : ℚ) ((200 : ℤ) / 100 : ℚ)).upper_bound -
          (formatEnhancedPoint 0 5 ((50 : ℤ) / 100 : ℚ) ((200 : ℤ) / 100 : ℚ)).lower_bound) := by
  refine ⟨c7_interval_width_amended.1 0 5 (1/2) 2, by norm_num, by norm_num, ?_⟩
  exact c7_interval_width_amended.2 0 5 50 200 (by norm_num) (by norm_num)

/-- C8 counterexample: the fallback bounds are rounded from the UNROUNDED
average, not derived from the reported `predicted_demand`.  With the
single observation `y = 1.006` (non-negative average), the point is
`(predicted, lower, upper) = (1.01, 0.80, 1.21)`, but
`round(0.8 * 1.01, 2) = 0.81 ≠ 0.80`. -/
theorem c8_bound_ratio_cex :
    0 ≤ recentAvg [((0:ℤ), (503/500 : ℚ))] ∧
    generate_moving_average_forecast [((0:ℤ), (503/500 : ℚ))] 1 =
      [{ date := 1, predicted_demand := 101/100, lower_bound := 4/5, upper_bound := 121/100 }] ∧
    round2 (0.8 * (101/100)) = 81/100 ∧
    (4/5 : ℚ) ≠ 81/100 := by
  refine ⟨?_, ?_, ?_, by norm_num⟩
  · norm_num [recentAvg, List.drop, List.map, List.sum_cons]
  · norm_num [generate_moving_average_forecast, recentAvg, maxDs, round2, roundHalfEven,
      List.range_succ, List.drop, List.map, List.sum_cons]
  · norm_num [round2, roundHalfEven]

/-- C8 as amended: for a non-negative recent average, every fallback
point satisfies `lower_bound = round(recent_avg * 0.8, 2)` and
`upper_bound = round(recent_avg * 1.2, 2)` — the ±20 % ratios are applied
to the unrounded average before rounding, not to the reported
`predicted_demand`. -/
theorem c8_bound_ratio_amended :
    ∀ (df : List (ℤ × ℚ)) (h : ℕ), df ≠ [] → 0 ≤ recentAvg df →
      ∀ pt ∈ generate_moving_average_forecast df h,
        pt.lower_bound = round2 (recentAvg df * 0.8) ∧
        pt.upper_bound = round2 (recentAvg df * 1.2) := by
  intro df h hdf hx pt hpt
  simp only [generate_moving_average_forecast, List.mem_map, List.mem_range] at hpt
  obtain ⟨i, -, rfl⟩ := hpt
  constructor
  · exact max_eq_right (round2_nonneg (by linarith))
  · exact max_eq_right (round2_nonneg (by linarith))

/-- C8 amended witness: the single-observation series `y = 1.006` with
horizon 1; its point's bounds equal the rounds of `0.8` and `1.2` times
the unrounded average. -/
theorem c8_bound_ratio_amended_witness :
    (([((0:ℤ), (503/500 : ℚ))] : List (ℤ × ℚ)) ≠ [] ∧
      0 ≤ recentAvg [((0:ℤ), (503/500 : ℚ))] ∧
      ({ date := 1, predicted_demand := 101/100, lower_bound := 4/5, upper_bound := 121/100 } : FallbackPoint)
        ∈ generate_moving_average_forecast [((0:ℤ), (503/500 : ℚ))] 1) ∧
    ({ date := 1, predicted_demand := 101/100, lower_bound := 4/5, upper_bound := 121/100 } : FallbackPoint).lower_bound
      = round2 (recentAvg [((0:ℤ), (503/500 : ℚ))] * 0.8) ∧
    ({ date := 1, predicted_demand := 101/100, lower_bound := 4/5, upper_bound := 121/100 } : FallbackPoint).upper_bound
      = round2 (recentAvg [((0:ℤ), (503/500 : ℚ))] * 1.2) := by
  have havg : 0 ≤ recentAvg [((0:ℤ), (503/500 : ℚ))] := by
    norm_num [recentAvg, List.drop, List.map, List.sum_cons]
  have hmem : ({ date := 1, predicted_demand := 101/100, lower_bound := 4/5, upper_bound := 121/100 } : FallbackPoint)
      ∈ generate_moving_average_forecast [((0:ℤ), (503/500 : ℚ))] 1 := by
    norm_num [generate_moving_average_forecast, recentAvg, maxDs, round2, roundHalfEven,
      List.range_succ, List.drop, List.map, List.sum_cons]
  have h := c8_bound_ratio_amended [((0:ℤ), (503/500 : ℚ))] 1 (by simp) havg _ hmem
  exact ⟨⟨by simp, havg, hmem⟩, h.1, h.2⟩
